import Mathlib

/-!
Verification development for the btrfs on-disk structure decoder
(`btrfs/btrfs.go`): a shallow embedding of the defensive binary decoder
for B-tree leaves, item descriptors and typed item payloads, together
with theorems about its clamping and degradation behaviour.

Bytes are modelled as `Nat` (concrete inputs use values below 256);
machine-integer truncation (`uint32` conversions) is modelled with
explicit `% 2 ^ 32`.
-/

set_option maxRecDepth 4000

/-- Modelled from the spec: the buffer cursor (`ParseBuffer`) is external
to the decoder source. It is a bounds-checked sequential reader over a
fixed byte slice with a current offset; reads past the end fail safely
by returning a truncated (and for fixed-width integers, zero-filled)
result, and absolute seek just sets the offset. -/
structure ParseBuffer where
  data : List Nat
  offset : Nat
deriving DecidableEq, Repr

/-- Modelled from the spec: total length of the underlying byte slice. -/
def ParseBuffer.len (b : ParseBuffer) : Nat := b.data.length

/-- Modelled from the spec: number of unread bytes (`Len() - Offset()`). -/
def ParseBuffer.unread (b : ParseBuffer) : Nat := b.len - b.offset

/-- Modelled from the spec: read-and-advance of up to `n` raw bytes;
a read past the end returns the (possibly empty) truncated slice and
advances only by the number of bytes actually taken. -/
def ParseBuffer.next (b : ParseBuffer) (n : Nat) : List Nat × ParseBuffer :=
  ((b.data.drop b.offset).take n,
    { b with offset := b.offset + ((b.data.drop b.offset).take n).length })

/-- Modelled from the spec: absolute seek (`SetOffset`). -/
def ParseBuffer.setOffset (b : ParseBuffer) (k : Nat) : ParseBuffer :=
  { b with offset := k }

/-- Little-endian value of a byte list; a truncated (short) list gives the
zero-filled interpretation the spec requires for reads past the end. -/
def leVal (l : List Nat) : Nat := l.foldr (fun x acc => x + 256 * acc) 0

/-- Modelled from the spec: little-endian 8-bit read. -/
def ParseBuffer.nextUint8 (b : ParseBuffer) : Nat × ParseBuffer :=
  let p := b.next 1
  (leVal p.1, p.2)

/-- Modelled from the spec: little-endian 16-bit read. -/
def ParseBuffer.nextUint16 (b : ParseBuffer) : Nat × ParseBuffer :=
  let p := b.next 2
  (leVal p.1, p.2)

/-- Modelled from the spec: little-endian 32-bit read. -/
def ParseBuffer.nextUint32 (b : ParseBuffer) : Nat × ParseBuffer :=
  let p := b.next 4
  (leVal p.1, p.2)

/-- Modelled from the spec: little-endian 64-bit read. -/
def ParseBuffer.nextUint64 (b : ParseBuffer) : Nat × ParseBuffer :=
  let p := b.next 8
  (leVal p.1, p.2)

/-- Go `copy(dst[:], b.Next(n))` into a fresh zero array of size `n`:
the bytes actually read, zero-filled up to `n`. -/
def ParseBuffer.nextPadded (b : ParseBuffer) (n : Nat) : List Nat × ParseBuffer :=
  let p := b.next n
  (p.1 ++ List.replicate (n - p.1.length) 0, p.2)

/-- Go conversion of a `uint64` bit pattern to `int64` (two's complement). -/
def toInt64 (n : Nat) : Int := if n < 2 ^ 63 then (n : Int) else (n : Int) - 2 ^ 64

/- Constants from the source. -/

def DefaultBlockSize : Nat := 4096

def CSumSize : Nat := 32

def UUIDSize : Nat := 16

/- Key type tags appearing in the payload dispatch table. -/

def InodeItemKey : Nat := 1
def InodeRefKey : Nat := 12
def XAttrItemKey : Nat := 24
def DirItemKey : Nat := 84
def DirIndexKey : Nat := 96
def ExtentDataKey : Nat := 108
def ExtentCSumKey : Nat := 128
def RootItemKey : Nat := 132
def RootBackRefKey : Nat := 144
def RootRefKey : Nat := 156
def ExtentItemKey : Nat := 168
def BlockGroupItemKey : Nat := 192

/-- Key: the three-field identity tuple (`Type` is a Lean keyword, hence
the primed field name). -/
structure Key where
  ObjectId : Nat
  Type' : Nat
  Offset : Nat
deriving DecidableEq, Repr

/-- Header of a metadata block, as in the source `Header` struct. -/
structure Header where
  CSum : List Nat
  FSID : List Nat
  ByteNr : Nat
  Flags : Nat
  ChunkTreeUUID : List Nat
  Generation : Nat
  Owner : Nat
  NrItems : Nat
  Level : Nat
deriving DecidableEq, Repr

/-- Source `Header.Parse`: pure sequential field reads. -/
def headerParse (b : ParseBuffer) : Header × ParseBuffer :=
  let p1 := b.nextPadded CSumSize
  let p2 := p1.2.nextPadded UUIDSize
  let p3 := p2.2.nextUint64
  let p4 := p3.2.nextUint64
  let p5 := p4.2.nextPadded UUIDSize
  let p6 := p5.2.nextUint64
  let p7 := p6.2.nextUint64
  let p8 := p7.2.nextUint32
  let p9 := p8.2.nextUint8
  ({ CSum := p1.1, FSID := p2.1, ByteNr := p3.1, Flags := p4.1,
     ChunkTreeUUID := p5.1, Generation := p6.1, Owner := p7.1,
     NrItems := p8.1, Level := p9.1 }, p9.2)

/-- Source `Key.Parse`. -/
def keyParse (b : ParseBuffer) : Key × ParseBuffer :=
  let p1 := b.nextUint64
  let p2 := p1.2.nextUint8
  let p3 := p2.2.nextUint64
  ({ ObjectId := p1.1, Type' := p2.1, Offset := p3.1 }, p3.2)

/-- Source `InodeItem` struct; the unexported 32-byte `reserved` region is
skipped by `Parse` and not stored. Timestamps keep the raw
`time.Unix(int64(sec), int64(nsec))` arguments. -/
structure InodeItem where
  Generation : Nat
  Transid : Nat
  Size : Nat
  Nbytes : Nat
  BlockGroup : Nat
  Nlink : Nat
  Uid : Nat
  Gid : Nat
  Mode : Nat
  Rdev : Nat
  Flags : Nat
  Sequence : Nat
  Atime : Int × Int
  Ctime : Int × Int
  Mtime : Int × Int
  Otime : Int × Int
deriving DecidableEq, Repr

/-- Source `InodeItem.Parse`. -/
def inodeItemParse (b : ParseBuffer) : InodeItem × ParseBuffer :=
  let p1 := b.nextUint64
  let p2 := p1.2.nextUint64
  let p3 := p2.2.nextUint64
  let p4 := p3.2.nextUint64
  let p5 := p4.2.nextUint64
  let p6 := p5.2.nextUint32
  let p7 := p6.2.nextUint32
  let p8 := p7.2.nextUint32
  let p9 := p8.2.nextUint32
  let p10 := p9.2.nextUint64
  let p11 := p10.2.nextUint64
  let p12 := p11.2.nextUint64
  let p13 := p12.2.next (4 * 8)
  let a1 := p13.2.nextUint64
  let a2 := a1.2.nextUint32
  let c1 := a2.2.nextUint64
  let c2 := c1.2.nextUint32
  let m1 := c2.2.nextUint64
  let m2 := m1.2.nextUint32
  let o1 := m2.2.nextUint64
  let o2 := o1.2.nextUint32
  ({ Generation := p1.1, Transid := p2.1, Size := p3.1, Nbytes := p4.1,
     BlockGroup := p5.1, Nlink := p6.1, Uid := p7.1, Gid := p8.1,
     Mode := p9.1, Rdev := p10.1, Flags := p11.1, Sequence := p12.1,
     Atime := (toInt64 a1.1, (a2.1 : Int)),
     Ctime := (toInt64 c1.1, (c2.1 : Int)),
     Mtime := (toInt64 m1.1, (m2.1 : Int)),
     Otime := (toInt64 o1.1, (o2.1 : Int)) }, o2.2)

/-- Source `InodeRefItem` struct; `Name` keeps the raw bytes of the Go
string. -/
structure InodeRefItem where
  Index : Nat
  NameLen : Nat
  Name : List Nat
deriving DecidableEq, Repr

/-- Source `InodeRefItem.Parse`, with the 255-byte name clamp. -/
def inodeRefItemParse (b : ParseBuffer) : InodeRefItem × ParseBuffer :=
  let p1 := b.nextUint64
  let p2 := p1.2.nextUint16
  let l := if p2.1 > 255 then 255 else p2.1
  let p3 := p2.2.next l
  ({ Index := p1.1, NameLen := p2.1, Name := p3.1 }, p3.2)

/-- Source `DirItem` struct (shared by xattr items, dir items and dir
indexes). -/
structure DirItem where
  Location : Key
  TransId : Nat
  DataLen : Nat
  NameLen : Nat
  Type' : Nat
  Name : List Nat
  Data : List Nat
deriving DecidableEq, Repr

/-- Source `DirItem.Parse`, with the 255-byte name clamp and the
one-block inline data clamp. -/
def dirItemParse (b : ParseBuffer) : DirItem × ParseBuffer :=
  let p1 := keyParse b
  let p2 := p1.2.nextUint64
  let p3 := p2.2.nextUint16
  let p4 := p3.2.nextUint16
  let p5 := p4.2.nextUint8
  let l1 := if p4.1 > 255 then 255 else p4.1
  let p6 := p5.2.next l1
  let l2 := if p3.1 > DefaultBlockSize then DefaultBlockSize else p3.1
  let p7 := p6.2.next l2
  ({ Location := p1.1, TransId := p2.1, DataLen := p3.1, NameLen := p4.1,
     Type' := p5.1, Name := p6.1, Data := p7.1 }, p7.2)

/-- Source `BlockGroupItem` struct. -/
structure BlockGroupItem where
  Used : Nat
  ChunkObjectId : Nat
  Flags : Nat
deriving DecidableEq, Repr

/-- Source `BlockGroupItem.Parse`. -/
def blockGroupItemParse (b : ParseBuffer) : BlockGroupItem × ParseBuffer :=
  let p1 := b.nextUint64
  let p2 := p1.2.nextUint64
  let p3 := p2.2.nextUint64
  ({ Used := p1.1, ChunkObjectId := p2.1, Flags := p3.1 }, p3.2)

/-- Source `FileExtentItem` struct. -/
structure FileExtentItem where
  Generation : Nat
  RamBytes : Nat
  Compression : Nat
  Encryption : Nat
  OtherEncoding : Nat
  Type' : Nat
  DiskByteNr : Nat
  DiskNumBytes : Nat
  Offset : Nat
  NumBytes : Nat
deriving DecidableEq, Repr

/-- Source `FileExtentItem.Parse`. -/
def fileExtentItemParse (b : ParseBuffer) : FileExtentItem × ParseBuffer :=
  let p1 := b.nextUint64
  let p2 := p1.2.nextUint64
  let p3 := p2.2.nextUint8
  let p4 := p3.2.nextUint8
  let p5 := p4.2.nextUint16
  let p6 := p5.2.nextUint8
  let p7 := p6.2.nextUint64
  let p8 := p7.2.nextUint64
  let p9 := p8.2.nextUint64
  let p10 := p9.2.nextUint64
  ({ Generation := p1.1, RamBytes := p2.1, Compression := p3.1,
     Encryption := p4.1, OtherEncoding := p5.1, Type' := p6.1,
     DiskByteNr := p7.1, DiskNumBytes := p8.1, Offset := p9.1,
     NumBytes := p10.1 }, p10.2)

/-- Source `CSumItem` struct (only a single checksum byte is modelled by
the source). -/
structure CSumItem where
  CSum : Nat
deriving DecidableEq, Repr

/-- Source `CSumItem.Parse`. -/
def csumItemParse (b : ParseBuffer) : CSumItem × ParseBuffer :=
  let p1 := b.nextUint8
  ({ CSum := p1.1 }, p1.2)

/-- Source `RootItem` struct. `BytesUsed` is declared in the source
struct but never assigned by `RootItem.Parse`, so it always carries the
Go zero value after a decode. -/
structure RootItem where
  Inode : InodeItem
  Generation : Nat
  RootDirId : Nat
  ByteNr : Nat
  ByteLimit : Nat
  BytesUsed : Nat
  LastSnapshot : Nat
  Flags : Nat
  Refs : Nat
  DropProgress : Key
  DropLevel : Nat
  Level : Nat
  GenerationV2 : Nat
  UUID : List Nat
  ParentUUID : List Nat
  ReceivedUUID : List Nat
  CTransId : Nat
  OTransId : Nat
  STransId : Nat
  RTransId : Nat
  Reserved : List Nat
deriving DecidableEq, Repr

/-- Source `RootItem.Parse`: base fields, then the extension block
(UUIDs, cross-transaction ids, reserved words) only when the two
generation fields are equal. Fields not assigned on a path keep the Go
zero value of the freshly allocated receiver. -/
def rootItemParse (b : ParseBuffer) : RootItem × ParseBuffer :=
  let pI := inodeItemParse b
  let p1 := pI.2.nextUint64
  let p2 := p1.2.nextUint64
  let p3 := p2.2.nextUint64
  let p4 := p3.2.nextUint64
  let p5 := p4.2.nextUint64
  let p6 := p5.2.nextUint64
  let p7 := p6.2.nextUint32
  let pK := keyParse p7.2
  let p8 := pK.2.nextUint8
  let p9 := p8.2.nextUint8
  let p10 := p9.2.nextUint64
  if p1.1 = p10.1 then
    let u1 := p10.2.nextPadded UUIDSize
    let u2 := u1.2.nextPadded UUIDSize
    let u3 := u2.2.nextPadded UUIDSize
    let t1 := u3.2.nextUint64
    let t2 := t1.2.nextUint64
    let t3 := t2.2.nextUint64
    let t4 := t3.2.nextUint64
    let r1 := t4.2.nextUint64
    let r2 := r1.2.nextUint64
    let r3 := r2.2.nextUint64
    let r4 := r3.2.nextUint64
    let r5 := r4.2.nextUint64
    let r6 := r5.2.nextUint64
    let r7 := r6.2.nextUint64
    let r8 := r7.2.nextUint64
    ({ Inode := pI.1, Generation := p1.1, RootDirId := p2.1, ByteNr := p3.1,
       ByteLimit := p4.1, BytesUsed := 0, LastSnapshot := p5.1,
       Flags := p6.1, Refs := p7.1, DropProgress := pK.1, DropLevel := p8.1,
       Level := p9.1, GenerationV2 := p10.1, UUID := u1.1, ParentUUID := u2.1,
       ReceivedUUID := u3.1, CTransId := t1.1, OTransId := t2.1,
       STransId := t3.1, RTransId := t4.1,
       Reserved := [r1.1, r2.1, r3.1, r4.1, r5.1, r6.1, r7.1, r8.1] }, r8.2)
  else
    ({ Inode := pI.1, Generation := p1.1, RootDirId := p2.1, ByteNr := p3.1,
       ByteLimit := p4.1, BytesUsed := 0, LastSnapshot := p5.1,
       Flags := p6.1, Refs := p7.1, DropProgress := pK.1, DropLevel := p8.1,
       Level := p9.1, GenerationV2 := p10.1,
       UUID := List.replicate UUIDSize 0,
       ParentUUID := List.replicate UUIDSize 0,
       ReceivedUUID := List.replicate UUIDSize 0,
       CTransId := 0, OTransId := 0, STransId := 0, RTransId := 0,
       Reserved := List.replicate 8 0 }, p10.2)

/-- Source `RootRef` struct (used for both root refs and root backrefs). -/
structure RootRef where
  DirId : Nat
  Sequence : Nat
  NameLen : Nat
  Name : List Nat
deriving DecidableEq, Repr

/-- Source `RootRef.Parse`, with the 255-byte name clamp. -/
def rootRefParse (b : ParseBuffer) : RootRef × ParseBuffer :=
  let p1 := b.nextUint64
  let p2 := p1.2.nextUint64
  let p3 := p2.2.nextUint16
  let l := if p3.1 > 255 then 255 else p3.1
  let p4 := p3.2.next l
  ({ DirId := p1.1, Sequence := p2.1, NameLen := p3.1, Name := p4.1 }, p4.2)

/-- Source `ExtentItem` struct. -/
structure ExtentItem where
  Refs : Nat
  Generation : Nat
  Flags : Nat
deriving DecidableEq, Repr

/-- Source `ExtentItem.Parse`. -/
def extentItemParse (b : ParseBuffer) : ExtentItem × ParseBuffer :=
  let p1 := b.nextUint64
  let p2 := p1.2.nextUint64
  let p3 := p2.2.nextUint64
  ({ Refs := p1.1, Generation := p2.1, Flags := p3.1 }, p3.2)

/-- The closed union of payload shapes produced by the dispatch table in
`Item.ParseData`. -/
inductive ItemData where
  | inodeItem : InodeItem → ItemData
  | inodeRefItem : InodeRefItem → ItemData
  | dirItem : DirItem → ItemData
  | fileExtentItem : FileExtentItem → ItemData
  | csumItem : CSumItem → ItemData
  | rootItem : RootItem → ItemData
  | rootRef : RootRef → ItemData
  | extentItem : ExtentItem → ItemData
  | blockGroupItem : BlockGroupItem → ItemData
deriving DecidableEq, Repr

/-- Source `Item` struct: embedded key, payload locator and optional
payload (`nil` interface modelled as `none`). The embedded `Key` field is
lowercase because a Lean field may not share its own type's name. -/
structure Item where
  key : Key
  Offset : Nat
  Size : Nat
  Data : Option ItemData
deriving DecidableEq, Repr

/-- Source `Item.Parse`: reads the key and the two 32-bit locator fields,
leaving the payload untouched. -/
def itemParse (i : Item) (b : ParseBuffer) : Item × ParseBuffer :=
  let p1 := keyParse b
  let p2 := p1.2.nextUint32
  let p3 := p2.2.nextUint32
  ({ i with key := p1.1, Offset := p2.1, Size := p3.1 }, p3.2)

/-- Source `Item.ParseData`: type-tag-driven dispatch. A tag outside the
table leaves both the item and the buffer untouched. -/
def itemParseData (i : Item) (b : ParseBuffer) : Item × ParseBuffer :=
  if i.key.Type' = InodeItemKey then
    let p := inodeItemParse b
    ({ i with Data := some (.inodeItem p.1) }, p.2)
  else if i.key.Type' = InodeRefKey then
    let p := inodeRefItemParse b
    ({ i with Data := some (.inodeRefItem p.1) }, p.2)
  else if i.key.Type' = XAttrItemKey ∨ i.key.Type' = DirItemKey ∨
      i.key.Type' = DirIndexKey then
    let p := dirItemParse b
    ({ i with Data := some (.dirItem p.1) }, p.2)
  else if i.key.Type' = ExtentDataKey then
    let p := fileExtentItemParse b
    ({ i with Data := some (.fileExtentItem p.1) }, p.2)
  else if i.key.Type' = ExtentCSumKey then
    let p := csumItemParse b
    ({ i with Data := some (.csumItem p.1) }, p.2)
  else if i.key.Type' = RootItemKey then
    let p := rootItemParse b
    ({ i with Data := some (.rootItem p.1) }, p.2)
  else if i.key.Type' = RootBackRefKey ∨ i.key.Type' = RootRefKey then
    let p := rootRefParse b
    ({ i with Data := some (.rootRef p.1) }, p.2)
  else if i.key.Type' = ExtentItemKey then
    let p := extentItemParse b
    ({ i with Data := some (.extentItem p.1) }, p.2)
  else if i.key.Type' = BlockGroupItemKey then
    let p := blockGroupItemParse b
    ({ i with Data := some (.blockGroupItem p.1) }, p.2)
  else
    (i, b)

/-- Source `Leaf` struct. The embedded `Header` field is lowercase
because a Lean field may not share its own type's name. -/
structure Leaf where
  header : Header
  Items : List Item
deriving DecidableEq, Repr

/-- Go `make([]Item, n)` followed by the first pass of `Leaf.Parse`:
each of the `n` zero-valued items has its descriptor parsed
sequentially. -/
def parseItems (n : Nat) (b : ParseBuffer) : List Item × ParseBuffer :=
  match n with
  | 0 => ([], b)
  | m + 1 =>
    let p := itemParse { key := ⟨0, 0, 0⟩, Offset := 0, Size := 0, Data := none } b
    let q := parseItems m p.2
    (p.1 :: q.1, q.2)

/-- Second pass of `Leaf.Parse`: for each item seek to
`uint32(headerEnd + item.Offset)` and run payload dispatch. -/
def resolvePass (headerEnd : Nat) (items : List Item) (b : ParseBuffer) :
    List Item × ParseBuffer :=
  match items with
  | [] => ([], b)
  | it :: rest =>
    let p := itemParseData it (b.setOffset ((headerEnd + it.Offset) % 2 ^ 32))
    let q := resolvePass headerEnd rest p.2
    (p.1 :: q.1, q.2)

/-- Source `Leaf.Parse`: early return on a zero declared item count,
`uint32` capture of the post-header offset, clamping of the item count to
`uint32(Unread() / 0x19)`, then the descriptor scan and the payload
resolution passes. The header itself is taken from the receiver, not
decoded from the buffer. -/
def leafParse (l : Leaf) (b : ParseBuffer) : Leaf × ParseBuffer :=
  if l.header.NrItems = 0 then (l, b)
  else
    let headerEnd := b.offset % 2 ^ 32
    let maxItems := b.unread / 0x19
    let numItems :=
      if l.header.NrItems > maxItems % 2 ^ 32 then maxItems % 2 ^ 32
      else l.header.NrItems
    let p := parseItems numItems b
    let q := resolvePass headerEnd p.1 p.2
    ({ l with Items := q.1 }, q.2)

theorem take_drop_length_of_le (d : List Nat) (o n : Nat) (h : o + n ≤ d.length) :
    ((d.drop o).take n).length = n := by
  simp [List.length_take, List.length_drop]
  omega

theorem next_full (d : List Nat) (o n : Nat) (h : o + n ≤ d.length) :
    ParseBuffer.next ⟨d, o⟩ n = ((d.drop o).take n, ⟨d, o + n⟩) := by
  simp [ParseBuffer.next, take_drop_length_of_le d o n h]

theorem nextUint8_full (d : List Nat) (o : Nat) (h : o + 1 ≤ d.length) :
    ParseBuffer.nextUint8 ⟨d, o⟩ = (leVal ((d.drop o).take 1), ⟨d, o + 1⟩) := by
  simp [ParseBuffer.nextUint8, next_full d o 1 h]

theorem nextUint16_full (d : List Nat) (o : Nat) (h : o + 2 ≤ d.length) :
    ParseBuffer.nextUint16 ⟨d, o⟩ = (leVal ((d.drop o).take 2), ⟨d, o + 2⟩) := by
  simp [ParseBuffer.nextUint16, next_full d o 2 h]

theorem nextUint32_full (d : List Nat) (o : Nat) (h : o + 4 ≤ d.length) :
    ParseBuffer.nextUint32 ⟨d, o⟩ = (leVal ((d.drop o).take 4), ⟨d, o + 4⟩) := by
  simp [ParseBuffer.nextUint32, next_full d o 4 h]

theorem nextUint64_full (d : List Nat) (o : Nat) (h : o + 8 ≤ d.length) :
    ParseBuffer.nextUint64 ⟨d, o⟩ = (leVal ((d.drop o).take 8), ⟨d, o + 8⟩) := by
  simp [ParseBuffer.nextUint64, next_full d o 8 h]

theorem nextPadded_full (d : List Nat) (o n : Nat) (h : o + n ≤ d.length) :
    ParseBuffer.nextPadded ⟨d, o⟩ n = ((d.drop o).take n, ⟨d, o + n⟩) := by
  simp [ParseBuffer.nextPadded, next_full d o n h, take_drop_length_of_le d o n h]

theorem next_exhausted (b : ParseBuffer) (n : Nat) (h : b.data.length ≤ b.offset) :
    b.next n = ([], b) := by
  have hd : b.data.drop b.offset = [] := List.drop_eq_nil_of_le h
  simp [ParseBuffer.next, hd]

theorem nextUint8_exhausted (b : ParseBuffer) (h : b.data.length ≤ b.offset) :
    b.nextUint8 = (0, b) := by
  simp [ParseBuffer.nextUint8, next_exhausted b 1 h, leVal]

theorem nextUint16_exhausted (b : ParseBuffer) (h : b.data.length ≤ b.offset) :
    b.nextUint16 = (0, b) := by
  simp [ParseBuffer.nextUint16, next_exhausted b 2 h, leVal]

theorem nextUint32_exhausted (b : ParseBuffer) (h : b.data.length ≤ b.offset) :
    b.nextUint32 = (0, b) := by
  simp [ParseBuffer.nextUint32, next_exhausted b 4 h, leVal]

theorem nextUint64_exhausted (b : ParseBuffer) (h : b.data.length ≤ b.offset) :
    b.nextUint64 = (0, b) := by
  simp [ParseBuffer.nextUint64, next_exhausted b 8 h, leVal]

theorem nextPadded_exhausted (b : ParseBuffer) (n : Nat) (h : b.data.length ≤ b.offset) :
    b.nextPadded n = (List.replicate n 0, b) := by
  simp [ParseBuffer.nextPadded, next_exhausted b n h]

theorem next_data (b : ParseBuffer) (n : Nat) : (b.next n).2.data = b.data := rfl

theorem nextUint8_data (b : ParseBuffer) : b.nextUint8.2.data = b.data := rfl

theorem nextUint16_data (b : ParseBuffer) : b.nextUint16.2.data = b.data := rfl

theorem nextUint32_data (b : ParseBuffer) : b.nextUint32.2.data = b.data := rfl

theorem nextUint64_data (b : ParseBuffer) : b.nextUint64.2.data = b.data := rfl

theorem nextPadded_data (b : ParseBuffer) (n : Nat) :
    (b.nextPadded n).2.data = b.data := rfl

theorem keyParse_data (b : ParseBuffer) : (keyParse b).2.data = b.data := by
  simp only [keyParse, nextUint64_data, nextUint8_data]

theorem inodeItemParse_data (b : ParseBuffer) :
    (inodeItemParse b).2.data = b.data := by
  simp only [inodeItemParse, nextUint64_data, nextUint32_data, next_data]

theorem inodeRefItemParse_data (b : ParseBuffer) :
    (inodeRefItemParse b).2.data = b.data := by
  simp only [inodeRefItemParse, nextUint64_data, nextUint16_data, next_data]

theorem dirItemParse_data (b : ParseBuffer) :
    (dirItemParse b).2.data = b.data := by
  simp only [dirItemParse, keyParse_data, nextUint64_data, nextUint16_data,
    nextUint8_data, next_data]

theorem blockGroupItemParse_data (b : ParseBuffer) :
    (blockGroupItemParse b).2.data = b.data := by
  simp only [blockGroupItemParse, nextUint64_data]

theorem fileExtentItemParse_data (b : ParseBuffer) :
    (fileExtentItemParse b).2.data = b.data := by
  simp only [fileExtentItemParse, nextUint64_data, nextUint16_data, nextUint8_data]

theorem csumItemParse_data (b : ParseBuffer) :
    (csumItemParse b).2.data = b.data := by
  simp only [csumItemParse, nextUint8_data]

theorem rootItemParse_data (b : ParseBuffer) :
    (rootItemParse b).2.data = b.data := by
  simp only [rootItemParse]
  split
  · simp only [nextUint64_data, nextPadded_data]
    simp only [keyParse_data, nextUint8_data, nextUint32_data, nextUint64_data,
      inodeItemParse_data]
  · simp only [nextUint64_data, nextUint8_data, keyParse_data, nextUint32_data,
      inodeItemParse_data]

theorem rootRefParse_data (b : ParseBuffer) :
    (rootRefParse b).2.data = b.data := by
  simp only [rootRefParse, nextUint64_data, nextUint16_data, next_data]

theorem extentItemParse_data (b : ParseBuffer) :
    (extentItemParse b).2.data = b.data := by
  simp only [extentItemParse, nextUint64_data]

theorem itemParseData_data (i : Item) (b : ParseBuffer) :
    (itemParseData i b).2.data = b.data := by
  unfold itemParseData
  repeat' split
  all_goals
    simp only [inodeItemParse_data, inodeRefItemParse_data, dirItemParse_data,
      fileExtentItemParse_data, csumItemParse_data, rootItemParse_data,
      rootRefParse_data, extentItemParse_data, blockGroupItemParse_data]

theorem parseItems_length (n : Nat) (b : ParseBuffer) :
    (parseItems n b).1.length = n := by
  induction n generalizing b with
  | zero => rfl
  | succ m ih => simp [parseItems, ih]

theorem resolvePass_map (headerEnd : Nat) (items : List Item) (b : ParseBuffer) :
    (resolvePass headerEnd items b).1 =
      items.map (fun it =>
        (itemParseData it ⟨b.data, (headerEnd + it.Offset) % 2 ^ 32⟩).1) := by
  induction items generalizing b with
  | nil => rfl
  | cons it rest ih =>
    simp [resolvePass, ParseBuffer.setOffset, ih, itemParseData_data]

/-- The set of type tags handled by the `Item.ParseData` dispatch table. -/
def dispatchTags : List Nat :=
  [InodeItemKey, InodeRefKey, XAttrItemKey, DirItemKey, DirIndexKey,
   ExtentDataKey, ExtentCSumKey, RootItemKey, RootBackRefKey, RootRefKey,
   ExtentItemKey, BlockGroupItemKey]

/-- Claim C7: for every name-bearing variant (inode ref; dir item, dir
index and xattr item, which share the `DirItem` shape; root ref and root
backref, which share the `RootRef` shape) and every value of the declared
name-length field, the decoded name is at most 255 bytes long. -/
theorem decoded_name_le_255 (b : ParseBuffer) :
    (inodeRefItemParse b).1.Name.length ≤ 255 ∧
    (dirItemParse b).1.Name.length ≤ 255 ∧
    (rootRefParse b).1.Name.length ≤ 255 := by
  refine ⟨?_, ?_, ?_⟩ <;>
    simp only [inodeRefItemParse, dirItemParse, rootRefParse, ParseBuffer.next,
      List.length_take] <;>
    refine le_trans (Nat.min_le_left _ _) ?_ <;>
    split <;> omega

/-- Claim C8: for every directory-item variant decode and every value of
the declared inline-data length field, the decoded inline data is at most
one block (4096 bytes, the default block size) long. -/
theorem decoded_inline_data_le_block (b : ParseBuffer) :
    (dirItemParse b).1.Data.length ≤ DefaultBlockSize := by
  simp only [dirItemParse, ParseBuffer.next, List.length_take]
  refine le_trans (Nat.min_le_left _ _) ?_
  unfold DefaultBlockSize
  split <;> omega

/-- Claim C9: the minimum item-descriptor size used for clamping
(0x19 = 25) is exactly the fixed-width portion of an Item descriptor:
on a buffer with at least 25 unread bytes, decoding one Item descriptor
(17-byte key, 4-byte offset, 4-byte size) advances the cursor by exactly
25 bytes and touches nothing else. -/
theorem itemParse_advances_25 (i : Item) (b : ParseBuffer)
    (h : 25 ≤ b.unread) :
    (itemParse i b).2 = ⟨b.data, b.offset + 25⟩ := by
  obtain ⟨d, o⟩ := b
  have h' : o + 25 ≤ d.length := by
    simp only [ParseBuffer.unread, ParseBuffer.len] at h
    omega
  simp (disch := omega) only [itemParse, keyParse, nextUint64_full,
    nextUint8_full, nextUint32_full]

/-- Witness for C9 at a concrete 25-byte buffer. -/
theorem itemParse_advances_25_witness :
    25 ≤ (⟨List.replicate 25 0, 0⟩ : ParseBuffer).unread ∧
    (itemParse ⟨⟨0, 0, 0⟩, 0, 0, none⟩ ⟨List.replicate 25 0, 0⟩).2 =
      ⟨(⟨List.replicate 25 0, 0⟩ : ParseBuffer).data,
       (⟨List.replicate 25 0, 0⟩ : ParseBuffer).offset + 25⟩ :=
  ⟨by decide, itemParse_advances_25 ⟨⟨0, 0, 0⟩, 0, 0, none⟩
    ⟨List.replicate 25 0, 0⟩ (by decide)⟩

/-- Claim C6: an item whose type tag is outside the dispatch table gets
no payload, without error: the item (key, offset, size, payload slot) and
the buffer are returned untouched, so decoding of subsequent items is
unaffected. -/
theorem unknown_tag_no_payload (i : Item) (b : ParseBuffer)
    (h : i.key.Type' ∉ dispatchTags) :
    itemParseData i b = (i, b) := by
  simp only [dispatchTags, List.mem_cons, List.not_mem_nil, or_false] at h
  push_neg at h
  obtain ⟨h1, h2, h3, h4, h5, h6, h7, h8, h9, h10, h11, h12⟩ := h
  simp [itemParseData, h1, h2, h3, h4, h5, h6, h7, h8, h9, h10, h11, h12]

/-- Witness for C6 at the unknown tag 2. -/
theorem unknown_tag_no_payload_witness :
    itemParseData ⟨⟨0, 2, 0⟩, 0, 0, none⟩ ⟨[5, 5], 0⟩ =
      (⟨⟨0, 2, 0⟩, 0, 0, none⟩, ⟨[5, 5], 0⟩) :=
  unknown_tag_no_payload ⟨⟨0, 2, 0⟩, 0, 0, none⟩ ⟨[5, 5], 0⟩ (by decide)

/-- Claim C3 (amended): `Leaf` decode does not itself decode the Header
from the buffer; it relies on the pre-populated header of the receiver
(taking the current cursor position as the header end) and never writes
the header. If the declared item count is 0 it stops with no items,
consuming nothing. -/
theorem leafParse_header_preparsed (l : Leaf) (b : ParseBuffer) :
    (l.header.NrItems = 0 → leafParse l b = (l, b)) ∧
    (leafParse l b).1.header = l.header := by
  constructor
  · intro h
    simp [leafParse, h]
  · unfold leafParse
    split <;> rfl

/-- Concrete inputs for C3: a buffer whose first 101 bytes form a valid
header that declares one item at level 0, paired with a zero-valued leaf
receiver. -/
def hdrBuf3 : ParseBuffer := ⟨List.replicate 96 0 ++ [1, 0, 0, 0, 0], 0⟩

/-- Zero-valued leaf receiver for the C3 scenario (Go zero `Leaf`). -/
def zeroLeaf3 : Leaf :=
  ⟨⟨List.replicate 32 0, List.replicate 16 0, 0, 0, List.replicate 16 0,
    0, 0, 0, 0⟩, []⟩

/-- Counterexample to claim C3 as stated: the buffer handed to `Leaf`
decode carries a well-formed header declaring one item, yet the decode
reads no header fields from the cursor: it returns with the receiver's
zero header, no items, and the cursor still at offset 0. Had the decode
begun by reading the header, it would have seen a declared count of 1. -/
theorem leafParse_ignores_buffered_header :
    (headerParse hdrBuf3).1.NrItems = 1 ∧
    leafParse zeroLeaf3 hdrBuf3 = (zeroLeaf3, hdrBuf3) := by decide

/-- Witness for C3 (amended) at the same concrete input. -/
theorem leafParse_header_preparsed_witness :
    leafParse zeroLeaf3 hdrBuf3 = (zeroLeaf3, hdrBuf3) ∧
    (leafParse zeroLeaf3 hdrBuf3).1.header = zeroLeaf3.header :=
  ⟨(leafParse_header_preparsed zeroLeaf3 hdrBuf3).1 rfl,
   (leafParse_header_preparsed zeroLeaf3 hdrBuf3).2⟩

/-- Go zero value of `InodeItem`, the record produced by a fully
exhausted decode. -/
def zeroInodeItem : InodeItem :=
  ⟨0, 0, 0, 0, 0, 0, 0, 0, 0, 0, 0, 0, (0, 0), (0, 0), (0, 0), (0, 0)⟩

/-- Go zero value of `InodeRefItem` as produced by an exhausted decode. -/
def zeroInodeRefItem : InodeRefItem := ⟨0, 0, []⟩

/-- Go zero value of `DirItem` as produced by an exhausted decode. -/
def zeroDirItem : DirItem := ⟨⟨0, 0, 0⟩, 0, 0, 0, 0, [], []⟩

/-- Go zero value of `FileExtentItem` as produced by an exhausted decode. -/
def zeroFileExtentItem : FileExtentItem := ⟨0, 0, 0, 0, 0, 0, 0, 0, 0, 0⟩

/-- Go zero value of `CSumItem` as produced by an exhausted decode. -/
def zeroCSumItem : CSumItem := ⟨0⟩

/-- Go zero value of `RootItem` as produced by an exhausted decode (the
two zero generations compare equal, so the extension fields are read,
each yielding zero). -/
def zeroRootItem : RootItem :=
  ⟨zeroInodeItem, 0, 0, 0, 0, 0, 0, 0, 0, ⟨0, 0, 0⟩, 0, 0, 0,
   List.replicate 16 0, List.replicate 16 0, List.replicate 16 0,
   0, 0, 0, 0, List.replicate 8 0⟩

/-- Go zero value of `RootRef` as produced by an exhausted decode. -/
def zeroRootRef : RootRef := ⟨0, 0, 0, []⟩

/-- Go zero value of `ExtentItem` as produced by an exhausted decode. -/
def zeroExtentItem : ExtentItem := ⟨0, 0, 0⟩

/-- Go zero value of `BlockGroupItem` as produced by an exhausted decode. -/
def zeroBlockGroupItem : BlockGroupItem := ⟨0, 0, 0⟩

/-- The payload an item receives when its dispatch runs on an exhausted
buffer: the zero record of its variant for a recognized tag, the previous
payload slot (untouched) otherwise. -/
def zeroPayload (t : Nat) (old : Option ItemData) : Option ItemData :=
  if t = InodeItemKey then some (.inodeItem zeroInodeItem)
  else if t = InodeRefKey then some (.inodeRefItem zeroInodeRefItem)
  else if t = XAttrItemKey ∨ t = DirItemKey ∨ t = DirIndexKey then
    some (.dirItem zeroDirItem)
  else if t = ExtentDataKey then some (.fileExtentItem zeroFileExtentItem)
  else if t = ExtentCSumKey then some (.csumItem zeroCSumItem)
  else if t = RootItemKey then some (.rootItem zeroRootItem)
  else if t = RootBackRefKey ∨ t = RootRefKey then some (.rootRef zeroRootRef)
  else if t = ExtentItemKey then some (.extentItem zeroExtentItem)
  else if t = BlockGroupItemKey then some (.blockGroupItem zeroBlockGroupItem)
  else old

theorem inodeItemParse_exhausted (b : ParseBuffer)
    (h : b.data.length ≤ b.offset) :
    inodeItemParse b = (zeroInodeItem, b) := by
  simp (disch := omega) [inodeItemParse, nextUint64_exhausted,
    nextUint32_exhausted, next_exhausted, zeroInodeItem, toInt64]

theorem inodeRefItemParse_exhausted (b : ParseBuffer)
    (h : b.data.length ≤ b.offset) :
    inodeRefItemParse b = (zeroInodeRefItem, b) := by
  simp (disch := omega) [inodeRefItemParse, nextUint64_exhausted,
    nextUint16_exhausted, next_exhausted, zeroInodeRefItem]

theorem keyParse_exhausted (b : ParseBuffer) (h : b.data.length ≤ b.offset) :
    keyParse b = (⟨0, 0, 0⟩, b) := by
  simp (disch := omega) [keyParse, nextUint64_exhausted, nextUint8_exhausted]

theorem dirItemParse_exhausted (b : ParseBuffer)
    (h : b.data.length ≤ b.offset) :
    dirItemParse b = (zeroDirItem, b) := by
  simp (disch := omega) [dirItemParse, keyParse_exhausted,
    nextUint64_exhausted, nextUint16_exhausted, nextUint8_exhausted,
    next_exhausted, zeroDirItem]

theorem fileExtentItemParse_exhausted (b : ParseBuffer)
    (h : b.data.length ≤ b.offset) :
    fileExtentItemParse b = (zeroFileExtentItem, b) := by
  simp (disch := omega) [fileExtentItemParse, nextUint64_exhausted,
    nextUint16_exhausted, nextUint8_exhausted, zeroFileExtentItem]

theorem csumItemParse_exhausted (b : ParseBuffer)
    (h : b.data.length ≤ b.offset) :
    csumItemParse b = (zeroCSumItem, b) := by
  simp (disch := omega) [csumItemParse, nextUint8_exhausted, zeroCSumItem]

theorem rootItemParse_exhausted (b : ParseBuffer)
    (h : b.data.length ≤ b.offset) :
    rootItemParse b = (zeroRootItem, b) := by
  simp (disch := omega) [rootItemParse, inodeItemParse_exhausted,
    keyParse_exhausted, nextUint64_exhausted, nextUint32_exhausted,
    nextUint8_exhausted, nextPadded_exhausted, zeroRootItem, zeroInodeItem,
    UUIDSize]

theorem rootRefParse_exhausted (b : ParseBuffer)
    (h : b.data.length ≤ b.offset) :
    rootRefParse b = (zeroRootRef, b) := by
  simp (disch := omega) [rootRefParse, nextUint64_exhausted,
    nextUint16_exhausted, next_exhausted, zeroRootRef]

theorem extentItemParse_exhausted (b : ParseBuffer)
    (h : b.data.length ≤ b.offset) :
    extentItemParse b = (zeroExtentItem, b) := by
  simp (disch := omega) [extentItemParse, nextUint64_exhausted, zeroExtentItem]

theorem blockGroupItemParse_exhausted (b : ParseBuffer)
    (h : b.data.length ≤ b.offset) :
    blockGroupItemParse b = (zeroBlockGroupItem, b) := by
  simp (disch := omega) [blockGroupItemParse, nextUint64_exhausted,
    zeroBlockGroupItem]

set_option maxHeartbeats 2000000 in
theorem itemParseData_exhausted (i : Item) (b : ParseBuffer)
    (h : b.data.length ≤ b.offset) :
    itemParseData i b = ({ i with Data := zeroPayload i.key.Type' i.Data }, b) := by
  simp only [itemParseData, zeroPayload]
  split_ifs
  all_goals
    simp only [inodeItemParse_exhausted b h, inodeRefItemParse_exhausted b h,
      dirItemParse_exhausted b h, fileExtentItemParse_exhausted b h,
      csumItemParse_exhausted b h, rootItemParse_exhausted b h,
      rootRefParse_exhausted b h, extentItemParse_exhausted b h,
      blockGroupItemParse_exhausted b h]

/-- Claim C2 (amended): when an item's computed payload seek target
(headerEnd + dataOffset, in 32-bit arithmetic) lies at or beyond the
buffer's end, the decode does not fault: dispatch runs against an
exhausted cursor, so a recognized tag yields the zero-valued payload
record of its variant (not an absent payload), an unrecognized tag leaves
the payload slot untouched, the cursor does not move past the seek, and
the payload-resolution pass decodes every item independently (it equals a
per-item map over the unchanged buffer data). -/
theorem seek_beyond_end_degrades :
    (∀ (headerEnd : Nat) (it : Item) (b : ParseBuffer),
      b.data.length ≤ (headerEnd + it.Offset) % 2 ^ 32 →
      itemParseData it (b.setOffset ((headerEnd + it.Offset) % 2 ^ 32)) =
        ({ it with Data := zeroPayload it.key.Type' it.Data },
         b.setOffset ((headerEnd + it.Offset) % 2 ^ 32))) ∧
    (∀ (headerEnd : Nat) (items : List Item) (b : ParseBuffer),
      (resolvePass headerEnd items b).1 =
        items.map (fun it =>
          (itemParseData it ⟨b.data, (headerEnd + it.Offset) % 2 ^ 32⟩).1)) := by
  constructor
  · intro he it b hb
    exact itemParseData_exhausted it _ hb
  · exact resolvePass_map

/-- Witness for C2 (amended): a recognized tag (extent item, 168) whose
seek target 100 lies beyond a 3-byte buffer, and an empty resolution
pass. -/
theorem seek_beyond_end_degrades_witness :
    (itemParseData ⟨⟨0, 168, 0⟩, 100, 0, none⟩
        ((⟨[1, 2, 3], 0⟩ : ParseBuffer).setOffset ((0 + 100) % 2 ^ 32)) =
      ({ (⟨⟨0, 168, 0⟩, 100, 0, none⟩ : Item) with
          Data := zeroPayload (⟨⟨0, 168, 0⟩, 100, 0, none⟩ : Item).key.Type'
            (⟨⟨0, 168, 0⟩, 100, 0, none⟩ : Item).Data },
       (⟨[1, 2, 3], 0⟩ : ParseBuffer).setOffset ((0 + 100) % 2 ^ 32))) ∧
    (resolvePass 0 [] ⟨[1, 2, 3], 0⟩).1 =
      [].map (fun it =>
        (itemParseData it ⟨(⟨[1, 2, 3], 0⟩ : ParseBuffer).data,
          (0 + it.Offset) % 2 ^ 32⟩).1) :=
  ⟨seek_beyond_end_degrades.1 0 ⟨⟨0, 168, 0⟩, 100, 0, none⟩ ⟨[1, 2, 3], 0⟩
      (by decide),
   seek_beyond_end_degrades.2 0 [] ⟨[1, 2, 3], 0⟩⟩

/-- Concrete leaf and buffer for the C2 counterexample: one item with the
recognized extent-item tag 168 whose declared payload offset 65535 sends
the seek far beyond the 126-byte buffer. -/
def leaf2 : Leaf :=
  ⟨⟨List.replicate 32 0, List.replicate 16 0, 0, 0, List.replicate 16 0,
    0, 0, 1, 0⟩, []⟩

/-- Buffer for the C2 counterexample, positioned after a 101-byte header
region, holding one item descriptor with tag 168 and payload offset
65535. -/
def buf2 : ParseBuffer :=
  ⟨List.replicate 101 0 ++
    (List.replicate 8 0 ++ [168] ++ List.replicate 8 0 ++
     [255, 255, 0, 0] ++ [0, 0, 0, 0]), 101⟩

/-- Counterexample to claim C2 as stated: the item's payload seek target
(101 + 65535) lies beyond the buffer's end, yet the decoded item's
payload is NOT absent — dispatch still allocates the recognized variant
and decodes it against the exhausted cursor, producing the zero-filled
extent-item record. -/
theorem seek_beyond_end_payload_not_absent :
    buf2.len ≤ (101 + 65535) % 2 ^ 32 ∧
    (leafParse leaf2 buf2).1.Items =
      [⟨⟨0, 168, 0⟩, 65535, 0, some (.extentItem ⟨0, 0, 0⟩)⟩] := by decide

/-- Claim C5: for every root-item payload decode from a buffer with the
full 383 bytes available, if the two decoded generation fields are equal
the UUID and cross-transaction-id extension fields are populated from the
corresponding buffer bytes (UUIDs at payload offsets 239/255/271,
transaction ids at 287/295/303/311) and the cursor advances past them to
offset 383; if the two generation fields differ, the extension fields
remain zero/absent and the cursor is left immediately after the second
generation field, at offset 239. -/
theorem rootItem_generation_gate (d : List Nat) (o : Nat)
    (h : o + 383 ≤ d.length) :
    ((rootItemParse ⟨d, o⟩).1.Generation = (rootItemParse ⟨d, o⟩).1.GenerationV2 →
      (rootItemParse ⟨d, o⟩).2.offset = o + 383 ∧
      (rootItemParse ⟨d, o⟩).1.UUID = (d.drop (o + 239)).take 16 ∧
      (rootItemParse ⟨d, o⟩).1.ParentUUID = (d.drop (o + 255)).take 16 ∧
      (rootItemParse ⟨d, o⟩).1.ReceivedUUID = (d.drop (o + 271)).take 16 ∧
      (rootItemParse ⟨d, o⟩).1.CTransId = leVal ((d.drop (o + 287)).take 8) ∧
      (rootItemParse ⟨d, o⟩).1.OTransId = leVal ((d.drop (o + 295)).take 8) ∧
      (rootItemParse ⟨d, o⟩).1.STransId = leVal ((d.drop (o + 303)).take 8) ∧
      (rootItemParse ⟨d, o⟩).1.RTransId = leVal ((d.drop (o + 311)).take 8)) ∧
    ((rootItemParse ⟨d, o⟩).1.Generation ≠ (rootItemParse ⟨d, o⟩).1.GenerationV2 →
      (rootItemParse ⟨d, o⟩).2.offset = o + 239 ∧
      (rootItemParse ⟨d, o⟩).1.UUID = List.replicate 16 0 ∧
      (rootItemParse ⟨d, o⟩).1.ParentUUID = List.replicate 16 0 ∧
      (rootItemParse ⟨d, o⟩).1.ReceivedUUID = List.replicate 16 0 ∧
      (rootItemParse ⟨d, o⟩).1.CTransId = 0 ∧
      (rootItemParse ⟨d, o⟩).1.OTransId = 0 ∧
      (rootItemParse ⟨d, o⟩).1.STransId = 0 ∧
      (rootItemParse ⟨d, o⟩).1.RTransId = 0) := by
  simp (disch := omega) [rootItemParse, inodeItemParse, keyParse,
    nextUint64_full, nextUint32_full, nextUint16_full, nextUint8_full,
    nextPadded_full, next_full, UUIDSize, Nat.add_assoc]
  split_ifs with hg
  · constructor
    · intro _
      refine ⟨rfl, rfl, rfl, rfl, rfl, rfl, rfl, rfl⟩
    · intro hne
      exact absurd hg hne
  · constructor
    · intro hEq
      exact absurd hEq hg
    · intro _
      refine ⟨rfl, rfl, rfl, rfl, rfl, rfl, rfl, rfl⟩

/-- Witness for C5 on an all-zero 383-byte payload, whose equal
generations take the extended branch. -/
theorem rootItem_generation_gate_witness :
    0 + 383 ≤ (List.replicate 383 0).length ∧
    ((rootItemParse ⟨List.replicate 383 0, 0⟩).2.offset = 0 + 383 ∧
     (rootItemParse ⟨List.replicate 383 0, 0⟩).1.UUID =
       ((List.replicate 383 0).drop (0 + 239)).take 16 ∧
     (rootItemParse ⟨List.replicate 383 0, 0⟩).1.ParentUUID =
       ((List.replicate 383 0).drop (0 + 255)).take 16 ∧
     (rootItemParse ⟨List.replicate 383 0, 0⟩).1.ReceivedUUID =
       ((List.replicate 383 0).drop (0 + 271)).take 16 ∧
     (rootItemParse ⟨List.replicate 383 0, 0⟩).1.CTransId =
       leVal (((List.replicate 383 0).drop (0 + 287)).take 8) ∧
     (rootItemParse ⟨List.replicate 383 0, 0⟩).1.OTransId =
       leVal (((List.replicate 383 0).drop (0 + 295)).take 8) ∧
     (rootItemParse ⟨List.replicate 383 0, 0⟩).1.STransId =
       leVal (((List.replicate 383 0).drop (0 + 303)).take 8) ∧
     (rootItemParse ⟨List.replicate 383 0, 0⟩).1.RTransId =
       leVal (((List.replicate 383 0).drop (0 + 311)).take 8)) :=
  ⟨by decide,
   (rootItem_generation_gate (List.replicate 383 0) 0 (by decide)).1 (by decide)⟩

theorem leafParse_length_eq (l : Leaf) (b : ParseBuffer)
    (h0 : l.header.NrItems ≠ 0) :
    (leafParse l b).1.Items.length =
      (if l.header.NrItems > (b.unread / 25) % 2 ^ 32
       then (b.unread / 25) % 2 ^ 32 else l.header.NrItems) := by
  simp [leafParse, h0, resolvePass_map, parseItems_length]

/-- Claim C1 (amended): whenever the buffer-derived bound
`unread / 25` fits in 32 bits (buffers below 25 * 2^32 bytes), a leaf
decode with a nonzero declared count produces exactly
`min(declaredCount, unread / 25)` items; and unconditionally — even when
the bound does not fit in 32 bits — the decoded item count never exceeds
`unread / 25`. -/
theorem leaf_item_count_clamped :
    (∀ (l : Leaf) (b : ParseBuffer), l.header.NrItems ≠ 0 →
      b.unread / 25 < 2 ^ 32 →
      (leafParse l b).1.Items.length = min l.header.NrItems (b.unread / 25)) ∧
    (∀ (l : Leaf) (b : ParseBuffer), l.header.NrItems ≠ 0 →
      (leafParse l b).1.Items.length ≤ b.unread / 25) := by
  constructor
  · intro l b h0 h
    rw [leafParse_length_eq l b h0]
    split <;> omega
  · intro l b h0
    rw [leafParse_length_eq l b h0]
    split <;> omega

/-- Witness for C1 (amended): a declared count of 5 against a 60-byte
buffer decodes to min(5, 2) = 2 items. -/
theorem leaf_item_count_clamped_witness :
    (leafParse
        ⟨⟨List.replicate 32 0, List.replicate 16 0, 0, 0, List.replicate 16 0,
          0, 0, 5, 0⟩, []⟩ ⟨List.replicate 60 0, 0⟩).1.Items.length =
      min (⟨⟨List.replicate 32 0, List.replicate 16 0, 0, 0,
          List.replicate 16 0, 0, 0, 5, 0⟩, []⟩ : Leaf).header.NrItems
        ((⟨List.replicate 60 0, 0⟩ : ParseBuffer).unread / 25) ∧
    (leafParse
        ⟨⟨List.replicate 32 0, List.replicate 16 0, 0, 0, List.replicate 16 0,
          0, 0, 5, 0⟩, []⟩ ⟨List.replicate 60 0, 0⟩).1.Items.length ≤
      (⟨List.replicate 60 0, 0⟩ : ParseBuffer).unread / 25 :=
  ⟨leaf_item_count_clamped.1 _ _ (by decide) (by decide),
   leaf_item_count_clamped.2 _ _ (by decide)⟩

/-- Leaf receiver for the C1 counterexample: declared item count 1. -/
def leaf1 : Leaf :=
  ⟨⟨List.replicate 32 0, List.replicate 16 0, 0, 0, List.replicate 16 0,
    0, 0, 1, 0⟩, []⟩

theorem pb_replicate_unread (n : Nat) :
    (⟨List.replicate n 0, 0⟩ : ParseBuffer).unread = n := by
  simp [ParseBuffer.unread, ParseBuffer.len]

/-- Counterexample to claim C1 as stated: with a declared count of 1 and
a 25 * 2^32-byte buffer, whose derived bound `unread / 25` equals 2^32,
the decode produces 0 items, not min(1, 2^32) = 1, because `Leaf.Parse`
converts the bound through `uint32`, truncating 2^32 to 0. -/
theorem leaf_count_uint32_truncated :
    (leafParse leaf1 ⟨List.replicate (25 * 2 ^ 32) 0, 0⟩).1.Items.length = 0 ∧
    min leaf1.header.NrItems
      ((⟨List.replicate (25 * 2 ^ 32) 0, 0⟩ : ParseBuffer).unread / 25) = 1 := by
  have h1 : leaf1.header.NrItems = 1 := rfl
  constructor
  · rw [leafParse_length_eq leaf1 _ (by rw [h1]; omega), pb_replicate_unread, h1]
    norm_num
  · rw [pb_replicate_unread, h1]
    norm_num

/-- Root-item payload for the C4 scenario: the eight bytes at payload
offset 192 — the on-disk position of the byte-usage field, right after
the byte-limit field — encode the value 7. -/
def buf4 : ParseBuffer :=
  ⟨List.replicate 192 0 ++ [7, 0, 0, 0, 0, 0, 0, 0], 0⟩

/-- Claim C4 (code bug): decoding a root-item payload does NOT populate
the byte-usage field. The struct declares `BytesUsed` in on-disk order,
but `RootItem.Parse` never assigns it: it stays at the Go zero value and
the bytes at the byte-usage position are consumed into `LastSnapshot`
instead (shifting every later field of the record). -/
theorem rootItem_bytesUsed_never_populated :
    leVal ((buf4.data.drop 192).take 8) = 7 ∧
    (rootItemParse buf4).1.BytesUsed = 0 ∧
    (rootItemParse buf4).1.LastSnapshot = 7 := by decide

/-- Leaf receiver for the C10 scenario: declared item count 1. -/
def leaf10 : Leaf :=
  ⟨⟨List.replicate 32 0, List.replicate 16 0, 0, 0, List.replicate 16 0,
    0, 0, 1, 0⟩, []⟩

/-- Buffer for the C10 scenario: cursor at 101 (headerEnd), one item
descriptor with tag 168 and declared payload offset 0xFFFFFFA0, and the
byte 42 planted at absolute offset 5 — the wrapped seek target. -/
def buf10 : ParseBuffer :=
  ⟨List.replicate 5 0 ++ [42] ++ List.replicate 95 0 ++
    (List.replicate 8 0 ++ [168] ++ List.replicate 8 0 ++
     [160, 255, 255, 255] ++ [0, 0, 0, 0]), 101⟩

/-- Claim C10: the payload seek target is computed in 32-bit unsigned
arithmetic as (headerEnd + dataOffset) mod 2^32. Here headerEnd = 101 and
dataOffset = 0xFFFFFFA0 sum to at least 2^32; the cursor is seeked to the
wrapped target 5 — inside the buffer — and the extent-item payload is
decoded from offset 5 (reading the planted byte 42), not treated as a
seek past the buffer's end. -/
theorem payload_target_wraps_uint32 :
    2 ^ 32 ≤ 101 + 4294967200 ∧
    (101 + 4294967200) % 2 ^ 32 = 5 ∧
    5 < buf10.len ∧
    (leafParse leaf10 buf10).1.Items =
      [⟨⟨0, 168, 0⟩, 4294967200, 0, some (.extentItem ⟨42, 0, 0⟩)⟩] := by decide
